import Mathlib

/-!
Shallow embedding of the auth-adapter route handlers (src/src/routes.rs)
and the entity records they manipulate, together with theorems settling
the specification claims about the Lookup Resolver, the Partial Update
Engine and the CRUD handlers.

The database is modelled as lists of records plus a `fails` flag that
makes every Storage Driver call return an error (modelling a failing
connection).  Write handlers additionally return the post-state of the
database and a count of Storage Driver calls issued, so that "never
reaches the store" properties are expressible.
-/

namespace AuthAdapter

/-- User record (entities crate; fields as read and written by
`update_user` in src/src/routes.rs and the schema description):
`id` identity key, optional `name`, `email`, `email_verified`
timestamp, `image`. -/
structure User where
  id : String
  name : Option String
  email : Option String
  email_verified : Option Int
  image : Option String
deriving DecidableEq, Repr

/-- Account record: storage primary key `id`, `provider`,
`provider_account_id` (composite lookup key with provider) and the
owning `user_id`. -/
structure Account where
  id : String
  provider : String
  provider_account_id : String
  user_id : String
deriving DecidableEq, Repr

/-- Session record: primary key `id`, owning `user_id`, `expires`
timestamp and the unique `session_token`. -/
structure Session where
  id : String
  user_id : String
  expires : Int
  session_token : String
deriving DecidableEq, Repr

/-- VerificationToken record: a separate storage primary key `id`
exists, while `identifier` is the lookup key used on delete. -/
structure VerificationToken where
  id : String
  identifier : String
  token : String
  expires : Int
deriving DecidableEq, Repr

/-- The relational store reached through the Storage Driver, one list
per table.  `fails` models a Storage Driver failing: when it is true
every driver call returns an error. -/
structure Database where
  users : List User
  accounts : List Account
  sessions : List Session
  verification_tokens : List VerificationToken
  fails : Bool
deriving DecidableEq, Repr

/-- The HTTP status codes the handlers in src/src/routes.rs return. -/
inductive Status where
  | ok
  | created
  | noContent
  | notFound
  | unprocessableEntity
  | internalServerError
deriving DecidableEq, Repr

/-- Response payload of the user read endpoint (`UserResult` in
src/src/routes.rs). -/
inductive UserResult where
  | Single : User → UserResult
  | Multiple : List User → UserResult
deriving DecidableEq, Repr

/-- Query string parameters, as the key-value map handlers receive
(`Query<HashMap<String, String>>`). -/
abbrev QueryMap := List (String × String)

/-- Lookup of a query parameter, modelling `query.get(key)`. -/
def getParam (q : QueryMap) (k : String) : Option String :=
  (q.find? (fun p => p.1 == k)).map (fun p => p.2)

/-- Driver call `user::Entity::find_by_id(id).one(..)`. -/
def findUserById (db : Database) (i : String) : Except Unit (Option User) :=
  if db.fails then .error () else .ok (db.users.find? (fun u => u.id == i))

/-- Driver call `user::Entity::find().filter(Email.eq(email)).one(..)`. -/
def findUserByEmail (db : Database) (e : String) : Except Unit (Option User) :=
  if db.fails then .error () else .ok (db.users.find? (fun u => u.email == some e))

/-- Users related to an account through its `user_id` foreign key. -/
def relatedUsers (db : Database) (a : Account) : List User :=
  db.users.filter (fun u => u.id == a.user_id)

/-- Driver call `account::Entity::find().filter(cond)
.find_with_related(user::Entity).all(..)`: each matching account is
paired with the users it belongs to. -/
def findAccountsWithRelated (db : Database) (cond : Account → Bool) :
    Except Unit (List (Account × List User)) :=
  if db.fails then .error ()
  else .ok ((db.accounts.filter cond).map (fun a => (a, relatedUsers db a)))

/-- Driver call `user::Entity::find().all(..)`. -/
def findAllUsers (db : Database) : Except Unit (List User) :=
  if db.fails then .error () else .ok db.users

/-- Driver call `account::Entity::find().filter(cond).one(..)`. -/
def findAccountOne (db : Database) (cond : Account → Bool) :
    Except Unit (Option Account) :=
  if db.fails then .error () else .ok (db.accounts.find? cond)

/-- Driver call `session::Entity::find_by_id(id).one(..)`. -/
def findSessionById (db : Database) (i : String) : Except Unit (Option Session) :=
  if db.fails then .error () else .ok (db.sessions.find? (fun s => s.id == i))

/-- Driver call `session::Entity::find().filter(SessionToken.eq(..)).one(..)`. -/
def findSessionByToken (db : Database) (t : String) : Except Unit (Option Session) :=
  if db.fails then .error ()
  else .ok (db.sessions.find? (fun s => s.session_token == t))

/-- Driver call `verification_token::Entity::find()
.filter(Identifier.eq(id)).one(..)`. -/
def findVerifTokenByIdentifier (db : Database) (i : String) :
    Except Unit (Option VerificationToken) :=
  if db.fails then .error ()
  else .ok (db.verification_tokens.find? (fun v => v.identifier == i))

/-- Driver commit of an updated user row (`user.update(..)`), keyed on
the primary key. -/
def saveUser (db : Database) (u : User) : Except Unit Database :=
  if db.fails then .error ()
  else .ok { db with users := db.users.map (fun x => if x.id == u.id then u else x) }

/-- Driver delete of a user row by primary key (`user.delete(..)`). -/
def removeUser (db : Database) (u : User) : Except Unit Database :=
  if db.fails then .error ()
  else .ok { db with users := db.users.filter (fun x => x.id != u.id) }

/-- Driver delete of an account row by primary key (`account.delete(..)`). -/
def removeAccount (db : Database) (a : Account) : Except Unit Database :=
  if db.fails then .error ()
  else .ok { db with accounts := db.accounts.filter (fun x => x.id != a.id) }

/-- Driver commit of an updated session row (`session.update(..)`). -/
def saveSession (db : Database) (s : Session) : Except Unit Database :=
  if db.fails then .error ()
  else .ok { db with sessions := db.sessions.map (fun x => if x.id == s.id then s else x) }

/-- Driver delete of a session row by primary key (`session.delete(..)`). -/
def removeSession (db : Database) (s : Session) : Except Unit Database :=
  if db.fails then .error ()
  else .ok { db with sessions := db.sessions.filter (fun x => x.id != s.id) }

/-- Driver delete of a verification token row by primary key
(`verif_token.delete(..)`). -/
def removeVerifToken (db : Database) (v : VerificationToken) : Except Unit Database :=
  if db.fails then .error ()
  else .ok { db with verification_tokens :=
    db.verification_tokens.filter (fun x => x.id != v.id) }

/-- Criteria bag of the user read endpoint (`UserSearchQuery`). -/
structure UserSearchQuery where
  id : Option String
  email : Option String
  provider : Option String
  provider_account_id : Option String
deriving DecidableEq, Repr

/-- The `id` strategy of `get_users` (src/src/routes.rs lines 84-97):
find by primary key; a missing row and a driver error both become
NO_CONTENT. -/
def lookup_by_id (i : String) (db : Database) : Except Status UserResult :=
  match findUserById db i with
  | .ok (some user) => .ok (.Single user)
  | .ok none => .error .noContent
  | .error _ => .error .noContent

/-- The `email` strategy (lines 98-115): filter on the email column;
a missing row and a driver error both become NO_CONTENT. -/
def lookup_by_email (e : String) (db : Database) : Except Status UserResult :=
  match findUserByEmail db e with
  | .ok (some user) => .ok (.Single user)
  | .ok none => .error .noContent
  | .error _ => .error .noContent

/-- The account-join strategies (lines 119-140, 142-159, 161-178): the
first matching account group yields its related users; an empty result
is NO_CONTENT and a driver error INTERNAL_SERVER_ERROR. -/
def lookup_by_account (cond : Account → Bool) (db : Database) :
    Except Status UserResult :=
  match findAccountsWithRelated db cond with
  | .ok result =>
    match result.head? with
    | some (_, users) => .ok (.Multiple users)
    | none => .error .noContent
  | .error _ => .error .internalServerError

/-- The list-all fallthrough (lines 180-186): all users, with a driver
error becoming NO_CONTENT. -/
def lookup_all (db : Database) : Except Status UserResult :=
  match findAllUsers db with
  | .ok users => .ok (.Multiple users)
  | .error _ => .error .noContent

/-- The user read handler `get_users` (src/src/routes.rs lines 80-187):
strategies are tried in the source's fixed order: id, email, both
provider and provider_account_id, provider_account_id alone, provider
alone, list all.  NOTE: the two account filters involving the supplied
`provider_account_id` compare it against `account::Column::Id` (the
storage primary key), exactly as the source does at lines 122 and 143. -/
def get_users (params : UserSearchQuery) (db : Database) : Except Status UserResult :=
  match params.id with
  | some i => lookup_by_id i db
  | none =>
    match params.email with
    | some e => lookup_by_email e db
    | none =>
      match params.provider_account_id, params.provider with
      | some i, some name =>
        lookup_by_account (fun a => a.id == i && a.provider == name) db
      | some i, none =>
        lookup_by_account (fun a => a.id == i) db
      | none, some name =>
        lookup_by_account (fun a => a.provider == name) db
      | none, none => lookup_all db

/-- The Partial Update Engine of `update_user` (src/src/routes.rs lines
212-224): each form field that is present overwrites the corresponding
field of the existing record with `Some(value)`; absent fields leave
the record untouched.  The `id` field of the form is never applied. -/
def apply_update (existing form : User) : User :=
  let u1 := match form.name with
    | some name => { existing with name := some name }
    | none => existing
  let u2 := match form.email with
    | some email => { u1 with email := some email }
    | none => u1
  let u3 := match form.email_verified with
    | some ev => { u2 with email_verified := some ev }
    | none => u2
  match form.image with
  | some image => { u3 with image := some image }
  | none => u3

/-- The user update handler `update_user` (lines 204-238).  The third
component counts Storage Driver calls issued.  An absent `id` query
parameter returns UNPROCESSABLE_ENTITY before any driver call; a failed
or empty lookup returns NOT_FOUND (the source's `if let Ok(Some(..))`
conflates the two); a failed commit returns INTERNAL_SERVER_ERROR. -/
def update_user (query : QueryMap) (form : User) (db : Database) :
    Status × Database × Nat :=
  match getParam query "id" with
  | some i =>
    match findUserById db i with
    | .ok (some user) =>
      (match saveUser db (apply_update user form) with
       | .ok db2 => (.ok, db2, 2)
       | .error _ => (.internalServerError, db, 2))
    | _ => (.notFound, db, 1)
  | none => (.unprocessableEntity, db, 0)

/-- The user delete handler `delete_user` (lines 254-272). -/
def delete_user (query : QueryMap) (db : Database) : Status × Database × Nat :=
  match getParam query "id" with
  | some i =>
    match findUserById db i with
    | .ok (some user) =>
      (match removeUser db user with
       | .ok db2 => (.ok, db2, 2)
       | .error _ => (.internalServerError, db, 2))
    | _ => (.notFound, db, 1)
  | none => (.unprocessableEntity, db, 0)

/-- The account delete handler `delete_account` (lines 316-342): both
the `id` and `name` query parameters are required (the nested
`query.get("id").map(|id| query.get("name").map(..))` of the source);
the lookup filters on ProviderAccountId and Provider. -/
def delete_account (query : QueryMap) (db : Database) : Status × Database × Nat :=
  match (getParam query "id").map
      (fun i => (getParam query "name").map (fun name => (i, name))) with
  | some (some (i, name)) =>
    match findAccountOne db
        (fun a => a.provider_account_id == i && a.provider == name) with
    | .ok (some account) =>
      (match removeAccount db account with
       | .ok db2 => (.ok, db2, 2)
       | .error _ => (.internalServerError, db, 2))
    | _ => (.notFound, db, 1)
  | _ => (.unprocessableEntity, db, 0)

/-- The session update handler `update_session` (lines 429-455).  NOTE:
exactly as the source at line 435, the required query parameter is
`id`, looked up with `find_by_id`; all four fields of the stored row
are then replaced by the form's values. -/
def update_session (query : QueryMap) (form : Session) (db : Database) :
    Status × Database × Nat :=
  match getParam query "id" with
  | some i =>
    match findSessionById db i with
    | .ok (some session) =>
      let updated : Session :=
        { session with
          id := form.id
          user_id := form.user_id
          expires := form.expires
          session_token := form.session_token }
      (match saveSession db updated with
       | .ok db2 => (.ok, db2, 2)
       | .error _ => (.internalServerError, db, 2))
    | _ => (.notFound, db, 1)
  | none => (.unprocessableEntity, db, 0)

/-- The session delete handler `delete_session` (lines 471-493): the
required query parameter is `sessionToken`, matched against the
SessionToken column. -/
def delete_session (query : QueryMap) (db : Database) : Status × Database × Nat :=
  match getParam query "sessionToken" with
  | some t =>
    match findSessionByToken db t with
    | .ok (some session) =>
      (match removeSession db session with
       | .ok db2 => (.ok, db2, 2)
       | .error _ => (.internalServerError, db, 2))
    | _ => (.notFound, db, 1)
  | none => (.unprocessableEntity, db, 0)

/-- The verification token delete handler `delete_verif_token` (lines
532-554): the required query parameter is named `id` but is matched
against the Identifier column.  The source returns a bare status code,
whose HTTP body is empty, so the response body component (the second
component here) is `none` on every path. -/
def delete_verif_token (query : QueryMap) (db : Database) :
    Status × Option VerificationToken × Database × Nat :=
  match getParam query "id" with
  | some i =>
    match findVerifTokenByIdentifier db i with
    | .ok (some vt) =>
      (match removeVerifToken db vt with
       | .ok db2 => (.ok, none, db2, 2)
       | .error _ => (.internalServerError, none, db, 2))
    | _ => (.notFound, none, db, 1)
  | none => (.unprocessableEntity, none, db, 0)

/-- A user with identity key u1 and no optional fields. -/
def u1 : User :=
  { id := "u1", name := none, email := none, email_verified := none, image := none }

/-- An account linked to u1: storage primary key a1, provider google,
provider account id 42. -/
def acct1 : Account :=
  { id := "a1", provider := "google", provider_account_id := "42", user_id := "u1" }

/-- A store holding u1 and its google account. -/
def db1 : Database :=
  { users := [u1], accounts := [acct1], sessions := [], verification_tokens := []
    fails := false }

/-- A store whose Storage Driver fails on every call. -/
def dbFail : Database :=
  { users := [], accounts := [], sessions := [], verification_tokens := []
    fails := true }

/-- A session with primary key s1 and session token tok1. -/
def sess1 : Session :=
  { id := "s1", user_id := "u1", expires := 0, session_token := "tok1" }

/-- A store holding u1 and the session sess1. -/
def db3 : Database :=
  { users := [u1], accounts := [], sessions := [sess1], verification_tokens := []
    fails := false }

/-- A verification token whose identifier differs from its storage id. -/
def vt1 : VerificationToken :=
  { id := "v1", identifier := "alice@x.com", token := "t", expires := 0 }

/-- A store holding only the verification token vt1. -/
def db8 : Database :=
  { users := [], accounts := [], sessions := [], verification_tokens := [vt1]
    fails := false }

/-- C1: the claim fails on the code.  The account in the store has
composite key (google, 42) and owner u1, yet the read with
provider=google and provider_account_id=42 returns no content instead
of Multiple [u1]: the handler compares the supplied
provider_account_id with the account's storage primary key column
(`account::Column::Id`, src/src/routes.rs line 122), not with its
provider_account_id column — while `delete_account` (line 325)
correctly uses the ProviderAccountId column for the same request
shape. -/
theorem c1_composite_read_uses_wrong_column :
    get_users
      { id := none, email := none, provider := some "google"
        provider_account_id := some "42" } db1 = .error .noContent ∧
    acct1.provider = "google" ∧ acct1.provider_account_id = "42" ∧
    acct1.user_id = u1.id ∧ db1.accounts = [acct1] ∧ db1.users = [u1] :=
  ⟨rfl, rfl, rfl, rfl, rfl, rfl⟩

/-- C3: the claim fails on the code.  The store holds a session whose
session_token is tok1, and a request carrying sessionToken=tok1 is
rejected as unprocessable with no storage call: `update_session` reads
the `id` query parameter (src/src/routes.rs line 435) and looks the
session up by primary key, contrary to its own OpenAPI annotation
(`sessionToken`); supplying the primary key under `id` is what reaches
the session. -/
theorem c3_update_session_reads_id_param :
    update_session [("sessionToken", "tok1")] sess1 db3
      = (.unprocessableEntity, db3, 0) ∧
    db3.sessions = [sess1] ∧ sess1.session_token = "tok1" ∧
    update_session [("id", "s1")] sess1 db3 = (.ok, db3, 2) := by
  decide

/-- C4: the claim fails on the code.  With a failing Storage Driver,
the id, email and list-all strategies of `get_users` report NO_CONTENT
(src/src/routes.rs lines 95, 113, 184) instead of the generic failure
outcome, conflating a storage error with "zero matches"; only the
account strategies report INTERNAL_SERVER_ERROR. -/
theorem c4_storage_error_conflated_with_no_content :
    get_users
      { id := some "u1", email := none, provider := none
        provider_account_id := none } dbFail = .error .noContent ∧
    get_users
      { id := none, email := some "a@x.com", provider := none
        provider_account_id := none } dbFail = .error .noContent ∧
    get_users
      { id := none, email := none, provider := none
        provider_account_id := none } dbFail = .error .noContent ∧
    get_users
      { id := none, email := none, provider := some "google"
        provider_account_id := some "42" } dbFail
      = .error .internalServerError :=
  ⟨rfl, rfl, rfl, rfl⟩

/-- C6: the Partial Update Engine writes only the fields present in
the patch: every absent field keeps exactly its prior value, every
present field is overwritten with that value, and the all-absent patch
returns the existing record unchanged. -/
theorem c6_apply_update_frame (existing form : User) :
    ((apply_update existing form).id = existing.id) ∧
    (∀ v, form.name = some v → (apply_update existing form).name = some v) ∧
    (form.name = none → (apply_update existing form).name = existing.name) ∧
    (∀ v, form.email = some v → (apply_update existing form).email = some v) ∧
    (form.email = none → (apply_update existing form).email = existing.email) ∧
    (∀ v, form.email_verified = some v →
      (apply_update existing form).email_verified = some v) ∧
    (form.email_verified = none →
      (apply_update existing form).email_verified = existing.email_verified) ∧
    (∀ v, form.image = some v → (apply_update existing form).image = some v) ∧
    (form.image = none → (apply_update existing form).image = existing.image) ∧
    (form.name = none → form.email = none → form.email_verified = none →
      form.image = none → apply_update existing form = existing) := by
  obtain ⟨fi, fn, fe, fv, fm⟩ := form
  cases fn <;> cases fe <;> cases fv <;> cases fm <;>
    simp [apply_update]

/-- C6 witness: with the all-absent patch the existing record u1 is
returned unchanged, and a patch carrying only a name overwrites the
name while keeping the email. -/
theorem c6_apply_update_frame_witness :
    apply_update u1
      { id := "ignored", name := none, email := none, email_verified := none
        image := none } = u1 ∧
    (apply_update u1
      { id := "ignored", name := some "Bob", email := none
        email_verified := none, image := none }).name = some "Bob" := by
  refine ⟨?_, ?_⟩
  · exact (c6_apply_update_frame u1 _).2.2.2.2.2.2.2.2.2 rfl rfl rfl rfl
  · exact (c6_apply_update_frame u1 _).2.1 "Bob" rfl

/-- C7: the Partial Update Engine is idempotent: applying the same
patch to the result of a first application yields the record of the
first application. -/
theorem c7_apply_update_idempotent (existing form : User) :
    apply_update (apply_update existing form) form = apply_update existing form := by
  obtain ⟨fi, fn, fe, fv, fm⟩ := form
  cases fn <;> cases fe <;> cases fv <;> cases fm <;>
    simp [apply_update]

/-- C10: the update path can never null a field nor change the id: for
every existing record and patch, each optional field of the updated
record is either its prior value or a present (non-null) value taken
from the patch, and the id is unchanged; hence no sequence of updates
through this interface clears a field. -/
theorem c10_update_never_nulls (e f : User) :
    (apply_update e f).id = e.id ∧
    ((apply_update e f).name = e.name ∨
      ∃ v, f.name = some v ∧ (apply_update e f).name = some v) ∧
    ((apply_update e f).email = e.email ∨
      ∃ v, f.email = some v ∧ (apply_update e f).email = some v) ∧
    ((apply_update e f).email_verified = e.email_verified ∨
      ∃ v, f.email_verified = some v ∧
        (apply_update e f).email_verified = some v) ∧
    ((apply_update e f).image = e.image ∨
      ∃ v, f.image = some v ∧ (apply_update e f).image = some v) := by
  obtain ⟨fi, fn, fe, fv, fm⟩ := f
  cases fn <;> cases fe <;> cases fv <;> cases fm <;>
    simp [apply_update]

/-- C2: `get_users` selects exactly one strategy in the source's fixed
priority order: id first (regardless of any other fields set), then
email, then provider together with provider_account_id, then
provider_account_id alone, then provider alone; the empty criteria bag
returns every stored user record as Multiple. -/
theorem c2_strategy_priority (params : UserSearchQuery) (db : Database) :
    (∀ i, params.id = some i → get_users params db = lookup_by_id i db) ∧
    (∀ e, params.id = none → params.email = some e →
      get_users params db = lookup_by_email e db) ∧
    (∀ i p, params.id = none → params.email = none →
      params.provider_account_id = some i → params.provider = some p →
      get_users params db
        = lookup_by_account (fun a => a.id == i && a.provider == p) db) ∧
    (∀ i, params.id = none → params.email = none → params.provider = none →
      params.provider_account_id = some i →
      get_users params db = lookup_by_account (fun a => a.id == i) db) ∧
    (∀ p, params.id = none → params.email = none →
      params.provider_account_id = none → params.provider = some p →
      get_users params db = lookup_by_account (fun a => a.provider == p) db) ∧
    (params.id = none → params.email = none → params.provider = none →
      params.provider_account_id = none → db.fails = false →
      get_users params db = .ok (.Multiple db.users)) := by
  obtain ⟨pid, pe, pp, pa⟩ := params
  refine ⟨?_, ?_, ?_, ?_, ?_, ?_⟩ <;> intros <;> subst_vars <;>
    simp_all [get_users, lookup_all, findAllUsers]

/-- C2 witness: with every field set the id strategy is chosen; each
single-criterion bag chooses its own strategy; the empty bag returns
all stored users. -/
theorem c2_strategy_priority_witness :
    get_users
      { id := some "u1", email := some "e", provider := some "p"
        provider_account_id := some "q" } db1 = lookup_by_id "u1" db1 ∧
    get_users
      { id := none, email := some "e", provider := none
        provider_account_id := none } db1 = lookup_by_email "e" db1 ∧
    get_users
      { id := none, email := none, provider := some "p"
        provider_account_id := some "q" } db1
      = lookup_by_account (fun a => a.id == "q" && a.provider == "p") db1 ∧
    get_users
      { id := none, email := none, provider := none
        provider_account_id := some "q" } db1
      = lookup_by_account (fun a => a.id == "q") db1 ∧
    get_users
      { id := none, email := none, provider := some "p"
        provider_account_id := none } db1
      = lookup_by_account (fun a => a.provider == "p") db1 ∧
    get_users
      { id := none, email := none, provider := none
        provider_account_id := none } db1 = .ok (.Multiple db1.users) :=
  ⟨(c2_strategy_priority _ db1).1 "u1" rfl,
   (c2_strategy_priority _ db1).2.1 "e" rfl rfl,
   (c2_strategy_priority _ db1).2.2.1 "q" "p" rfl rfl rfl rfl,
   (c2_strategy_priority _ db1).2.2.2.1 "q" rfl rfl rfl rfl,
   (c2_strategy_priority _ db1).2.2.2.2.1 "p" rfl rfl rfl rfl,
   (c2_strategy_priority _ db1).2.2.2.2.2 rfl rfl rfl rfl rfl⟩

/-- C5: every update or delete handler whose required key query
parameter is absent returns UNPROCESSABLE_ENTITY, leaves the store
unchanged and issues zero Storage Driver calls.  The required keys are
the ones each handler reads: `id` for user update/delete, session
update (see C3) and verification token delete; `id` and `name` for
account delete; `sessionToken` for session delete. -/
theorem c5_missing_key_unprocessable_no_storage (query : QueryMap)
    (form : User) (sform : Session) (db : Database) :
    (getParam query "id" = none →
      update_user query form db = (.unprocessableEntity, db, 0) ∧
      delete_user query db = (.unprocessableEntity, db, 0) ∧
      update_session query sform db = (.unprocessableEntity, db, 0) ∧
      delete_verif_token query db = (.unprocessableEntity, none, db, 0)) ∧
    (getParam query "id" = none ∨ getParam query "name" = none →
      delete_account query db = (.unprocessableEntity, db, 0)) ∧
    (getParam query "sessionToken" = none →
      delete_session query db = (.unprocessableEntity, db, 0)) := by
  refine ⟨?_, ?_, ?_⟩
  · intro h
    exact ⟨by simp [update_user, h], by simp [delete_user, h],
      by simp [update_session, h], by simp [delete_verif_token, h]⟩
  · intro h
    rcases h with h | h
    · simp [delete_account, h]
    · cases hid : getParam query "id" <;> simp [delete_account, h, hid]
  · intro h
    simp [delete_session, h]

/-- C5 witness: requests with the required keys absent (empty query
map, and an account delete missing `name`) are rejected as
unprocessable with the store untouched and zero driver calls. -/
theorem c5_missing_key_witness :
    update_user [] u1 db1 = (.unprocessableEntity, db1, 0) ∧
    delete_user [] db1 = (.unprocessableEntity, db1, 0) ∧
    update_session [] sess1 db1 = (.unprocessableEntity, db1, 0) ∧
    delete_verif_token [] db1 = (.unprocessableEntity, none, db1, 0) ∧
    delete_account [("id", "42")] db1 = (.unprocessableEntity, db1, 0) ∧
    delete_session [] db1 = (.unprocessableEntity, db1, 0) :=
  ⟨((c5_missing_key_unprocessable_no_storage [] u1 sess1 db1).1 rfl).1,
   ((c5_missing_key_unprocessable_no_storage [] u1 sess1 db1).1 rfl).2.1,
   ((c5_missing_key_unprocessable_no_storage [] u1 sess1 db1).1 rfl).2.2.1,
   ((c5_missing_key_unprocessable_no_storage [] u1 sess1 db1).1 rfl).2.2.2,
   (c5_missing_key_unprocessable_no_storage [("id", "42")] u1 sess1 db1).2.1
     (Or.inr rfl),
   (c5_missing_key_unprocessable_no_storage [] u1 sess1 db1).2.2 rfl⟩

/-- C8 counterexample: the claim fails on the code in two ways.  With
the identifier supplied under the `id` key the matching token is
deleted, but the success response is a bare OK with an empty body —
the deleted record is not returned; and a request supplying the key
literally named `identifier` is rejected as unprocessable, because the
handler reads the `id` query parameter (src/src/routes.rs line 536). -/
theorem c8_counterexample :
    delete_verif_token [("id", "alice@x.com")] db8
      = (.ok, none, { db8 with verification_tokens := [] }, 2) ∧
    delete_verif_token [("identifier", "alice@x.com")] db8
      = (.unprocessableEntity, none, db8, 0) := by
  decide

/-- C8 amended: for every verification token delete request carrying
the token's identifier under the `id` query parameter, if a token with
that identifier exists then the first such token is deleted (removed
by its storage primary key) and the outcome is OK with an empty body
(the deleted record is not returned); if none exists the outcome is
NotFound. -/
theorem c8_delete_verif_token_by_identifier (query : QueryMap)
    (db : Database) (i : String) (hk : getParam query "id" = some i)
    (hf : db.fails = false) :
    (∀ vt, db.verification_tokens.find? (fun v => v.identifier == i) = some vt →
      delete_verif_token query db
        = (.ok, none,
           { db with verification_tokens :=
             db.verification_tokens.filter (fun x => x.id != vt.id) }, 2)) ∧
    (db.verification_tokens.find? (fun v => v.identifier == i) = none →
      delete_verif_token query db = (.notFound, none, db, 1)) := by
  constructor
  · intro vt hvt
    simp [delete_verif_token, hk, findVerifTokenByIdentifier, hf, hvt,
      removeVerifToken]
  · intro hvt
    simp [delete_verif_token, hk, findVerifTokenByIdentifier, hf, hvt]

/-- C8 witness: deleting with id=alice@x.com on the store holding vt1
removes vt1 and returns OK with an empty body. -/
theorem c8_delete_verif_token_witness :
    delete_verif_token [("id", "alice@x.com")] db8
      = (.ok, none,
         { db8 with verification_tokens :=
           db8.verification_tokens.filter (fun x => x.id != vt1.id) }, 2) :=
  (c8_delete_verif_token_by_identifier [("id", "alice@x.com")] db8
    "alice@x.com" rfl rfl).1 vt1 rfl

/-- Outcome of an account-join strategy as a function of the first
matching account row: a matched row yields its related users, even
when that list is empty; no match yields NO_CONTENT. -/
theorem lookup_by_account_head (cond : Account → Bool) (db : Database)
    (hf : db.fails = false) :
    (∀ a, (db.accounts.filter cond).head? = some a →
      lookup_by_account cond db = .ok (.Multiple (relatedUsers db a))) ∧
    ((db.accounts.filter cond).head? = none →
      lookup_by_account cond db = .error .noContent) := by
  constructor
  · intro a ha
    simp [lookup_by_account, findAccountsWithRelated, hf, List.head?_map, ha]
  · intro ha
    simp [lookup_by_account, findAccountsWithRelated, hf, List.head?_map, ha]

/-- C9: in each of the three account-based strategies of `get_users`,
a matching account row always produces the success outcome with the
(possibly empty) list of its related users — never the no-content
outcome; no-content arises exactly when no account row matches. -/
theorem c9_matched_account_yields_multiple (db : Database) (i p : String)
    (hf : db.fails = false) :
    (∀ a, (db.accounts.filter (fun x => x.id == i && x.provider == p)).head?
        = some a →
      get_users
        { id := none, email := none, provider := some p
          provider_account_id := some i } db
        = .ok (.Multiple (relatedUsers db a))) ∧
    ((db.accounts.filter (fun x => x.id == i && x.provider == p)).head? = none →
      get_users
        { id := none, email := none, provider := some p
          provider_account_id := some i } db = .error .noContent) ∧
    (∀ a, (db.accounts.filter (fun x => x.id == i)).head? = some a →
      get_users
        { id := none, email := none, provider := none
          provider_account_id := some i } db
        = .ok (.Multiple (relatedUsers db a))) ∧
    ((db.accounts.filter (fun x => x.id == i)).head? = none →
      get_users
        { id := none, email := none, provider := none
          provider_account_id := some i } db = .error .noContent) ∧
    (∀ a, (db.accounts.filter (fun x => x.provider == p)).head? = some a →
      get_users
        { id := none, email := none, provider := some p
          provider_account_id := none } db
        = .ok (.Multiple (relatedUsers db a))) ∧
    ((db.accounts.filter (fun x => x.provider == p)).head? = none →
      get_users
        { id := none, email := none, provider := some p
          provider_account_id := none } db = .error .noContent) :=
  ⟨(lookup_by_account_head _ db hf).1, (lookup_by_account_head _ db hf).2,
   (lookup_by_account_head _ db hf).1, (lookup_by_account_head _ db hf).2,
   (lookup_by_account_head _ db hf).1, (lookup_by_account_head _ db hf).2⟩

/-- An account whose owning user_id points at no stored user. -/
def acct2 : Account :=
  { id := "a2", provider := "github", provider_account_id := "7"
    user_id := "ghost" }

/-- A store holding acct2 and no users at all. -/
def db9 : Database :=
  { users := [], accounts := [acct2], sessions := [], verification_tokens := []
    fails := false }

/-- C9 witness: the account matches the composite strategy yet has zero
related users, and the read returns Multiple of the empty list rather
than no-content. -/
theorem c9_matched_account_witness :
    get_users
      { id := none, email := none, provider := some "github"
        provider_account_id := some "a2" } db9 = .ok (.Multiple []) ∧
    relatedUsers db9 acct2 = [] :=
  ⟨(c9_matched_account_yields_multiple db9 "a2" "github" rfl).1 acct2 rfl, rfl⟩

end AuthAdapter
